import Mathlib

/-!
# Verification of the Wait-Time-Predictor frontend

Shallow embedding of the frontend source files of the Wait-Time-Predictor
repository (`frontend/src/App.jsx`, `frontend/src/services/api.js`,
`frontend/src/components/PredictionForm.jsx`,
`frontend/src/components/PredictionResult.jsx`,
`frontend/src/components/WaitTimeChart.jsx`), together with theorems that
settle the specification claims about those files.

Conventions of the embedding:
* JavaScript numbers are modelled as rationals (`ℚ`); the values involved
  (counts, seconds, rates, the 0.1/0.15 noise factors) are exactly
  representable, so no floating-point rounding is relevant to the claims.
* A JavaScript value that may be `undefined`/`null` is an `Option`.
* The browser's `Math.random()` stream is made explicit: a function
  `ℕ → ℚ` giving the `k`-th draw, each draw lying in `[0, 1)`.
* `axios` outcomes (resolved response vs. thrown error object) are an
  explicit inductive type, so the `try/catch` logic becomes a `match`.
-/

/-! ## JavaScript numeric primitives -/

/-- JavaScript truncation toward zero (the implicit `trunc` inside the
`%` operator on numbers). -/
def jsTrunc (x : ℚ) : ℤ :=
  if 0 ≤ x then ⌊x⌋ else -⌊-x⌋

/-- The JavaScript `%` operator on numbers: `x % y = x - y * trunc (x / y)`
(for the finite, nonzero divisors used by the code). -/
def jsMod (x y : ℚ) : ℚ :=
  x - y * (jsTrunc (x / y) : ℚ)

/-- `String.includes` from JavaScript: substring containment. -/
def strIncludes (s pat : String) : Bool :=
  decide (pat.data <:+: s.data)

/-- `Number.prototype.toFixed(1)`: round `x·10` to the nearest integer,
ties away from zero (ECMA-262: minimize `|n/10¹ - x|`, ties pick the
larger `n`, with the sign split off first), then print with one digit
after the point. -/
def toFixed1 (x : ℚ) : String :=
  if x < 0 then
    let n : ℤ := ⌊-x * 10 + 1 / 2⌋
    "-" ++ toString (n / 10) ++ "." ++ toString (n % 10)
  else
    let n : ℤ := ⌊x * 10 + 1 / 2⌋
    toString (n / 10) ++ "." ++ toString (n % 10)

/-! ## `WaitTimeChart.jsx`: the sample-data generator

```js
const generateSampleData = () => {
  const queueSizes = [];
  const waitTimes = [];
  for (let i = 1; i <= 200; i += 5) {
    queueSizes.push(i);
    const baseWaitTime = i * 60;
    const noise = baseWaitTime * 0.1 * (Math.random() * 2 - 1); // ±10% noise
    waitTimes.push(Math.max(0, baseWaitTime + noise) / 60); // Convert to minutes
  }
  return { queueSizes, waitTimes };
};
```

The loop index takes the 40 values `1, 6, 11, …, 196` (the `k`-th is
`1 + 5k`, `k = 0 … 39`; `196 + 5 = 201 > 200` stops it), and the `k`-th
iteration consumes the `k`-th `Math.random()` draw. -/

/-- Base wait time in seconds for queue size `i`: `i * 60`
(`queue_size * avg_service_time` with the default 60 s service time). -/
def baseWaitTime (i : ℕ) : ℚ := (i : ℚ) * 60

/-- One iteration body of the loop: the wait time (in minutes) pushed for
queue size `i` when the `Math.random()` draw is `u`. -/
def sampleWaitTime (i : ℕ) (u : ℚ) : ℚ :=
  let base := baseWaitTime i
  let noise := base * (1 / 10) * (u * 2 - 1)
  max 0 (base + noise) / 60

/-- `generateSampleData`, as a function of the explicit `Math.random()`
stream `rng` (the `k`-th loop iteration reads `rng k`).  Returns the pair
`(queueSizes, waitTimes)`. -/
def generateSampleData (rng : ℕ → ℚ) : List ℕ × List ℚ :=
  ((List.range 40).map (fun k => 1 + 5 * k),
   (List.range 40).map (fun k => sampleWaitTime (1 + 5 * k) (rng k)))

/-- The random stream delivered by `Math.random()`: every draw is in `[0, 1)`. -/
def ValidRng (rng : ℕ → ℚ) : Prop :=
  ∀ k, 0 ≤ rng k ∧ rng k < 1

/-- `WaitTimeChart.jsx`: the "Your Prediction" dataset added when a
prediction with queue size `q` and wait `m` minutes is displayed:
`[...Array(q - 1).fill(null), m]`. -/
def predictionDataset (q : ℕ) (m : ℚ) : List (Option ℚ) :=
  List.replicate (q - 1) none ++ [some m]

/-! ## `services/api.js`

The axios client and the exported request helpers.  A call to an axios
method either resolves with a response body or throws an error object
carrying `code`, `message` and (when an HTTP response arrived)
`response.data.detail`; `AxiosOutcome` makes the two cases explicit, and
each helper becomes a total function of the outcome, so the `try/catch`
blocks become `match`es. -/

/-- The response body of a successful `/predict` or `/predict-image`
call (the backend's Prediction Result shape). -/
structure PredictionData where
  predicted_wait_time_seconds : ℚ
  predicted_wait_time_minutes : ℚ
  queue_size : ℕ
  avg_service_time : ℚ
  arrival_rate : Option ℚ
  deriving DecidableEq, Repr

/-- The error object thrown by axios: `code` (absent for some error
kinds), the always-present `message` string, and
`error.response?.data?.detail` flattened to one `Option` (`none` when any
step of the optional chain is missing). -/
structure AxiosError where
  code : Option String
  message : String
  detail : Option String
  deriving DecidableEq, Repr

/-- Outcome of an awaited axios call with body type `β`. -/
inductive AxiosOutcome (β : Type) where
  | ok (body : β)
  | err (e : AxiosError)
  deriving DecidableEq, Repr

/-- The value a helper resolves with: `{success, data?, error?}`. -/
structure ApiResult (β : Type) where
  success : Bool
  data : Option β
  error : Option String
  deriving DecidableEq, Repr

/-- The fixed network-failure message used by `predictWaitTime`. -/
def cannotConnectMsg : String :=
  "Cannot connect to backend server. Please make sure the backend is running on http://localhost:8000"

/-- The JavaScript chain `error.response?.data?.detail || error.message || fallback`
(`||` takes the first truthy operand; a string is truthy iff non-empty,
an absent value is falsy). -/
def detailOrMessageOr (detail : Option String) (message fallback : String) : String :=
  match detail with
  | some d => if d ≠ "" then d else if message ≠ "" then message else fallback
  | none => if message ≠ "" then message else fallback

/-- Whether an axios error is treated as a network error:
`error.code === 'ERR_NETWORK' || error.message.includes('Network Error')`. -/
def isNetworkError (e : AxiosError) : Bool :=
  e.code = some "ERR_NETWORK" || strIncludes e.message "Network Error"

/-- `predictWaitTime` from `api.js`, as a function of the axios outcome of
`api.post('/predict', data)`.  It always resolves (never throws): every
branch returns an `ApiResult`. -/
def predictWaitTime (o : AxiosOutcome PredictionData) : ApiResult PredictionData :=
  match o with
  | .ok body => { success := true, data := some body, error := none }
  | .err e =>
    if isNetworkError e then
      { success := false, data := none, error := some cannotConnectMsg }
    else
      { success := false, data := none,
        error := some (detailOrMessageOr e.detail e.message "Prediction failed") }

/-- How a request body is encoded on the wire. -/
inductive Encoding where
  | json
  | multipart
  deriving DecidableEq, Repr

/-- An outgoing HTTP request: relative URL, body encoding, and the named
body entries (a `File` value is represented by its name). -/
structure HttpRequest where
  url : String
  encoding : Encoding
  fields : List (String × String)
  deriving DecidableEq, Repr

/-- The payload `PredictionForm.handleSubmit` passes to `onPredict`:
`{image: formData.image, avg_service_time: parseFloat(...), arrival_rate: ... || undefined}`. -/
structure FormPayload where
  image : String
  avg_service_time : ℚ
  arrival_rate : Option ℚ
  deriving DecidableEq, Repr

/-- Serialization of a rational the way the JS code stringifies the
number (integers print without a decimal point; the claims only ever
inspect integral values, where this agrees with JS `String(n)`). -/
def numStr (q : ℚ) : String :=
  if q.den = 1 then toString q.num else toString q

/-- The request issued by `predictWaitTime`: `api.post('/predict', data)`
with the client's default `Content-Type: application/json`, the payload
serialized as a JSON object.  Note the body carries whatever fields the
caller's object has — there is no `queue_size` unless the caller put one
in. -/
def predictWaitTimeRequest (data : FormPayload) : HttpRequest :=
  { url := "/predict"
    encoding := .json
    fields :=
      [("image", data.image), ("avg_service_time", numStr data.avg_service_time)] ++
        (match data.arrival_rate with
         | some r => [("arrival_rate", numStr r)]
         | none => []) }

/-- The request issued by `predictWaitTimeFromImage`: a `FormData` with
`image`, `avg_service_time` (stringified) and, when the rate was supplied
(not `undefined`/`null`/`''`), `arrival_rate`, posted to `/predict-image`
as `multipart/form-data`. -/
def predictWaitTimeFromImageRequest (imageFile : String) (avgServiceTime : ℚ)
    (arrivalRate : Option ℚ) : HttpRequest :=
  { url := "/predict-image"
    encoding := .multipart
    fields :=
      [("image", imageFile), ("avg_service_time", numStr avgServiceTime)] ++
        (match arrivalRate with
         | some r => [("arrival_rate", numStr r)]
         | none => []) }

/-- The training report body returned by the backend on `/train`. -/
structure TrainReport where
  status : String
  model_type : String
  r2_score : ℚ
  mse : ℚ
  deriving DecidableEq, Repr

/-- `trainModel(modelType = 'linear')`: the URL of the request it issues,
`` `/train?model_type=${modelType}` ``. -/
def trainModelUrl (modelType : String := "linear") : String :=
  "/train?model_type=" ++ modelType

/-- `trainModel`'s resolution as a function of the axios outcome of
`api.post(trainModelUrl modelType)`. -/
def trainModel (o : AxiosOutcome TrainReport) : ApiResult TrainReport :=
  match o with
  | .ok body => { success := true, data := some body, error := none }
  | .err e =>
    { success := false, data := none,
      error := some (detailOrMessageOr e.detail e.message "Training failed") }

/-! ## `PredictionForm.jsx`: client-side validation and submit

The controlled inputs are HTML `<input type="number">` elements, whose
`value` is either the empty string or a valid decimal numeral; the image
is a `File` or `null`.  We model a numeric field as `Option ℚ`: `none`
for the empty string, `some v` for the (non-empty) numeral of value `v`.
Presence (`some`) is exactly JS truthiness of the field's string value —
note the string `"0"` is truthy, so `some 0` is "present" for the
short-circuit tests below, matching the source. -/

/-- The form state `{image, avg_service_time, arrival_rate}` at submit
time (the image modelled by its file name). -/
structure FormState where
  image : Option String
  avg_service_time : Option ℚ
  arrival_rate : Option ℚ
  deriving DecidableEq, Repr

/-- The per-field error messages produced by `validateForm` (`none` when
the field key is absent from `newErrors`). -/
structure FormErrors where
  image : Option String
  avg_service_time : Option String
  arrival_rate : Option String
  deriving DecidableEq, Repr

/-- `validateForm`'s `newErrors` object:

```js
if (!formData.image) newErrors.image = 'Please upload a queue image';
if (!formData.avg_service_time || formData.avg_service_time <= 0)
  newErrors.avg_service_time = 'Average service time must be greater than 0';
if (formData.arrival_rate && formData.arrival_rate <= 0)
  newErrors.arrival_rate = 'Arrival rate must be greater than 0';
```

(`formData.avg_service_time <= 0` compares the input's string against a
number, which coerces the numeral to its value). -/
def validateFormErrors (f : FormState) : FormErrors :=
  { image :=
      if f.image = none then some "Please upload a queue image" else none
    avg_service_time :=
      match f.avg_service_time with
      | none => some "Average service time must be greater than 0"
      | some v =>
        if v ≤ 0 then some "Average service time must be greater than 0" else none
    arrival_rate :=
      match f.arrival_rate with
      | none => none
      | some v =>
        if v ≤ 0 then some "Arrival rate must be greater than 0" else none }

/-- `Object.keys(newErrors).length === 0`: the boolean `validateForm`
returns. -/
def validateForm (f : FormState) : Bool :=
  let e := validateFormErrors f
  e.image = none && e.avg_service_time = none && e.arrival_rate = none

/-- `handleSubmit`: `none` when validation failed (the handler returns
without calling `onPredict`), otherwise `some` of the payload passed to
`onPredict` (`parseFloat` of a valid numeral is its value;
`formData.arrival_rate ? parseFloat(...) : undefined` keeps the
truthiness split). -/
def handleSubmit (f : FormState) : Option FormPayload :=
  if validateForm f then
    some
      { image := f.image.getD ""
        avg_service_time := f.avg_service_time.getD 0
        arrival_rate :=
          match f.arrival_rate with
          | some v => if v ≠ 0 then some v else none
          | none => none }
  else
    none

/-! ## `PredictionResult.jsx`: result formatting -/

/-- The arrival-rate cell:
`arrival_rate ? `${arrival_rate.toFixed(1)}/min` : '2.0/min (default)'`
(`arrival_rate` is the echoed response field, a number or absent; falsy
means absent, `0`, or `NaN` — `NaN` cannot arise from the backend's
positive floats and has no `ℚ` counterpart). -/
def displayArrivalRate : Option ℚ → String
  | none => "2.0/min (default)"
  | some v => if v ≠ 0 then toFixed1 v ++ "/min" else "2.0/min (default)"

/-- The `hours` component: `Math.floor(predicted_wait_time_minutes / 60)`. -/
def hoursOf (m : ℚ) : ℤ := ⌊m / 60⌋

/-- The `minutes` component: `Math.floor(predicted_wait_time_minutes % 60)`. -/
def minutesOf (m : ℚ) : ℤ := ⌊jsMod m 60⌋

/-- The `seconds` component: `Math.floor(predicted_wait_time_seconds % 60)`. -/
def secondsOf (s : ℚ) : ℤ := ⌊jsMod s 60⌋

/-- One pushed part, e.g. `` `${hours} hour${hours !== 1 ? 's' : ''}` ``. -/
def timePart (n : ℤ) (unit : String) : String :=
  toString n ++ " " ++ unit ++ (if n ≠ 1 then "s" else "")

/-- The `parts` array built by `formatTime`:

```js
const parts = [];
if (hours > 0) parts.push(`${hours} hour${hours !== 1 ? 's' : ''}`);
if (minutes > 0) parts.push(`${minutes} minute${minutes !== 1 ? 's' : ''}`);
if (seconds > 0 && hours === 0) parts.push(`${seconds} second${seconds !== 1 ? 's' : ''}`);
```
-/
def formatTimeParts (m s : ℚ) : List String :=
  let hours := hoursOf m
  let minutes := minutesOf m
  let seconds := secondsOf s
  (if 0 < hours then [timePart hours "hour"] else []) ++
    (if 0 < minutes then [timePart minutes "minute"] else []) ++
      (if 0 < seconds ∧ hours = 0 then [timePart seconds "second"] else [])

/-- `formatTime`: `parts.join(', ') || 'Less than a second'` (the join of
an empty array is the empty string, which is falsy). -/
def formatTime (m s : ℚ) : String :=
  let joined := String.intercalate ", " (formatTimeParts m s)
  if joined = "" then "Less than a second" else joined

/-! ## `App.jsx`: `handlePredict` and the `prediction`/`error`/`isLoading` state

```js
const handlePredict = async (formData) => {
  setIsLoading(true); setError(null); setPrediction(null);
  try {
    const result = await predictWaitTime(formData);
    if (result.success) { setPrediction(result.data); setError(null); }
    else { setError(result.error); setPrediction(null); }
  } catch (err) { ... } finally { setIsLoading(false); }
};
```

`predictWaitTime` always resolves (it is a total function of the axios
outcome), so the `catch` branch is dead; the state evolution is the two
steps below.
Note `App.jsx` imports and calls **`predictWaitTime`** — not
`predictWaitTimeFromImage` — with the form payload. -/

/-- The `App` component state relevant to a prediction. -/
structure AppState where
  prediction : Option PredictionData
  error : Option String
  isLoading : Bool
  deriving DecidableEq, Repr

/-- The state after the three leading `set` calls, while the request is
in flight. -/
def handlePredictStart (_s : AppState) : AppState :=
  { prediction := none, error := none, isLoading := true }

/-- The state after the `try`/`finally` completes, given the in-flight
state and the resolved `ApiResult`. -/
def handlePredictSettle (s : AppState) (r : ApiResult PredictionData) : AppState :=
  let s1 :=
    if r.success then { s with prediction := r.data, error := none }
    else { s with error := r.error, prediction := none }
  { s1 with isLoading := false }

/-- A full run of `handlePredict` from state `s` when the axios call for
`api.post('/predict', …)` has outcome `o`: the pair (in-flight state,
final state). -/
def handlePredictRun (s : AppState) (o : AxiosOutcome PredictionData) :
    AppState × AppState :=
  let mid := handlePredictStart s
  (mid, handlePredictSettle mid (predictWaitTime o))

/-- The request `App`'s submit path puts on the wire: `handleSubmit`'s
payload goes to `handlePredict`, which calls `predictWaitTime`, i.e.
`api.post('/predict', data)` — JSON to `/predict`. -/
def appSubmitRequest (data : FormPayload) : HttpRequest :=
  predictWaitTimeRequest data

/-! ## Spec-side definitions

Definitions transcribing claim wording, to be compared with the
source-side definitions above. -/

/-- The validity condition as the claim about `handleSubmit` words it:
an image is present, `avg_service_time` is present and greater than 0,
and `arrival_rate`, when present, is greater than 0. -/
def claimFormValid (f : FormState) : Prop :=
  f.image.isSome = true ∧
    (∃ v, f.avg_service_time = some v ∧ 0 < v) ∧
    (∀ v, f.arrival_rate = some v → 0 < v)

/-- `formatTime`'s output as the claim about it reads: the non-zero
hour/minute/second components joined with commas, the seconds component
omitted whenever the hours component is positive, and the string
`"Less than a second"` when all displayed components are zero. -/
def claimTimeString (m s : ℚ) : String :=
  let displayed :=
    (if hoursOf m ≠ 0 then [timePart (hoursOf m) "hour"] else []) ++
      (if minutesOf m ≠ 0 then [timePart (minutesOf m) "minute"] else []) ++
        (if secondsOf s ≠ 0 ∧ ¬0 < hoursOf m then [timePart (secondsOf s) "second"]
         else [])
  if displayed = [] then "Less than a second" else String.intercalate ", " displayed

/-! ## Claim theorems -/

/-- **C1.** The claim states that every form submission goes out as a
multipart request to `/predict-image` carrying the image.  The code does
not do this: `App.jsx` imports only `predictWaitTime` and
`handlePredict` calls it with the form payload, so the submission
`{image: "queue.jpg", avg_service_time: 60}` is posted as JSON to the
plain `/predict` endpoint (with no `queue_size` field), while the unused
`predictWaitTimeFromImage` is the function that would have produced the
claimed multipart `/predict-image` request. -/
theorem appSubmit_posts_json_to_predict_endpoint :
    appSubmitRequest ⟨"queue.jpg", 60, none⟩ =
      { url := "/predict", encoding := .json,
        fields := [("image", "queue.jpg"), ("avg_service_time", "60")] } ∧
    (appSubmitRequest ⟨"queue.jpg", 60, none⟩).url ≠ "/predict-image" ∧
    (appSubmitRequest ⟨"queue.jpg", 60, none⟩).encoding ≠ .multipart ∧
    (predictWaitTimeFromImageRequest "queue.jpg" 60 none).url = "/predict-image" ∧
    (predictWaitTimeFromImageRequest "queue.jpg" 60 none).encoding = .multipart := by
  refine ⟨?_, by decide, by decide, rfl, rfl⟩
  show HttpRequest.mk "/predict" .json
      ([("image", "queue.jpg"), ("avg_service_time", numStr 60)] ++ []) = _
  norm_num [numStr]
  rfl

/-- **C4 (counterexample).** The claim states that two runs of
`generateSampleData` with the same inputs produce identical sequences.
The generator draws from the unseeded `Math.random()` stream: a run
whose draws are all `0` and a run whose draws are all `1/2` disagree
already in the first wait time (`9/10` vs `1` minutes). -/
theorem generateSampleData_differs_across_runs :
    generateSampleData (fun _ => 0) ≠ generateSampleData (fun _ => 1 / 2) := by
  intro h
  have h2 := congrArg (fun p => p.2.getD 0 0) h
  simp only [generateSampleData, List.getD_eq_getElem?_getD, List.getElem?_map,
    List.getElem?_range, sampleWaitTime, baseWaitTime] at h2
  norm_num at h2

/-- **C4 (amended).** The queue-size sequence is the same on every run,
and the output is a function of the 40 `Math.random()` draws the loop
consumes; but the generator is unseeded, so two runs with the same
inputs need not produce the same wait times (see the counterexample). -/
theorem generateSampleData_deterministic_in_draws (r₁ r₂ : ℕ → ℚ) :
    (generateSampleData r₁).1 = (generateSampleData r₂).1 ∧
    ((∀ k, k < 40 → r₁ k = r₂ k) → generateSampleData r₁ = generateSampleData r₂) := by
  refine ⟨rfl, fun h => ?_⟩
  simp only [generateSampleData, Prod.mk.injEq, true_and]
  exact List.map_congr_left fun k hk => by rw [h k (List.mem_range.mp hk)]

/-- Witness for `generateSampleData_deterministic_in_draws`: draws that
agree on the first 40 indices (here: everywhere below 40, differing at
40 and above) yield identical outputs. -/
theorem generateSampleData_deterministic_in_draws_witness :
    generateSampleData (fun k => (k : ℚ) / 100) =
      generateSampleData (fun k => if k < 40 then (k : ℚ) / 100 else 7) :=
  (generateSampleData_deterministic_in_draws _ _).2 fun k hk => by simp [hk]

/-- **C6.** `trainModel()` defaults `model_type` to `'linear'`, issuing
`/train?model_type=linear`; `trainModel(m)` issues
`` `/train?model_type=${m}` ``; and a successful response body is handed
back unchanged under `data` with `success := true`. -/
theorem trainModel_url_and_success :
    trainModelUrl = "/train?model_type=linear" ∧
    (∀ m : String, trainModelUrl m = "/train?model_type=" ++ m) ∧
    (∀ b : TrainReport, trainModel (.ok b) =
      { success := true, data := some b, error := none }) :=
  ⟨rfl, fun _ => rfl, fun _ => rfl⟩

/-- Shared bound on one loop iteration of the chart's sample-data
generator: for any draw `u ∈ [0, 1)` the pushed wait time (in minutes)
is non-negative and within `[0.9·i, 1.1·i]`. -/
theorem sampleWaitTime_bounds (i : ℕ) (u : ℚ) (hi : 1 ≤ i) (h0 : 0 ≤ u) (h1 : u < 1) :
    0 ≤ sampleWaitTime i u ∧
    (9 / 10) * (i : ℚ) ≤ sampleWaitTime i u ∧
    sampleWaitTime i u ≤ (11 / 10) * (i : ℚ) := by
  have hi' : (1 : ℚ) ≤ (i : ℚ) := by exact_mod_cast hi
  have hpos : 0 ≤ (i : ℚ) * 60 + (i : ℚ) * 60 * (1 / 10) * (u * 2 - 1) := by nlinarith
  simp only [sampleWaitTime, baseWaitTime]
  rw [max_eq_right hpos]
  refine ⟨by positivity, ?_, ?_⟩
  · rw [le_div_iff₀ (by norm_num)]
    nlinarith
  · rw [div_le_iff₀ (by norm_num)]
    nlinarith

/-- **C5.** The `k`-th queue size emitted by `generateSampleData` is
`1 + 5k` (so `1, 6, 11, …, 196`, each within `[1, 200]`), the base
value before noise is `queue_size · 60` seconds, and for every random
draw in `[0, 1)` the emitted wait time is non-negative and lies within
`[0.9·q, 1.1·q]` minutes. -/
theorem sampleData_noise_bounds (rng : ℕ → ℚ) (hr : ValidRng rng) (k : ℕ) (hk : k < 40) :
    (generateSampleData rng).1.getD k 0 = 1 + 5 * k ∧
    1 ≤ 1 + 5 * k ∧ 1 + 5 * k ≤ 200 ∧
    baseWaitTime (1 + 5 * k) = ((1 + 5 * k : ℕ) : ℚ) * 60 ∧
    0 ≤ (generateSampleData rng).2.getD k 0 ∧
    (9 / 10) * ((1 + 5 * k : ℕ) : ℚ) ≤ (generateSampleData rng).2.getD k 0 ∧
    (generateSampleData rng).2.getD k 0 ≤ (11 / 10) * ((1 + 5 * k : ℕ) : ℚ) := by
  have hq : (generateSampleData rng).1.getD k 0 = 1 + 5 * k := by
    simp [generateSampleData, List.getD_eq_getElem?_getD, List.getElem?_map,
      List.getElem?_range, hk]
  have hw : (generateSampleData rng).2.getD k 0 = sampleWaitTime (1 + 5 * k) (rng k) := by
    simp [generateSampleData, List.getD_eq_getElem?_getD, List.getElem?_map,
      List.getElem?_range, hk]
  obtain ⟨hb0, hb1⟩ := hr k
  have hb := sampleWaitTime_bounds (1 + 5 * k) (rng k) (by omega) hb0 hb1
  rw [hw]
  exact ⟨hq, by omega, by omega, rfl, hb.1, hb.2.1, hb.2.2⟩

/-- Witness for `sampleData_noise_bounds`: the all-zero draw stream is a
valid `Math.random()` stream, and at `k = 0` the emitted wait time obeys
the claimed bounds. -/
theorem sampleData_noise_bounds_witness :
    ValidRng (fun _ => 0) ∧
    (0 : ℚ) ≤ (generateSampleData (fun _ => 0)).2.getD 0 0 ∧
    (9 / 10) * ((1 + 5 * 0 : ℕ) : ℚ) ≤ (generateSampleData (fun _ => 0)).2.getD 0 0 ∧
    (generateSampleData (fun _ => 0)).2.getD 0 0 ≤ (11 / 10) * ((1 + 5 * 0 : ℕ) : ℚ) := by
  have hv : ValidRng (fun _ => 0) := fun k => by norm_num
  have h := sampleData_noise_bounds (fun _ => 0) hv 0 (by norm_num)
  exact ⟨hv, h.2.2.2.2.1, h.2.2.2.2.2.1, h.2.2.2.2.2.2⟩

/-- **C2.** `handleSubmit` passes a payload to `onPredict` exactly when
client-side validation passes (image present, `avg_service_time` present
and `> 0`, `arrival_rate` `> 0` whenever present); each failing field
gets its error message, and an invalid form issues no prediction
request (`handleSubmit` returns without calling `onPredict`). -/
theorem handleSubmit_iff_valid (f : FormState) :
    ((handleSubmit f).isSome ↔ claimFormValid f) ∧
    (f.image = none → (validateFormErrors f).image = some "Please upload a queue image") ∧
    ((f.avg_service_time = none ∨ ∃ v, f.avg_service_time = some v ∧ v ≤ 0) →
      (validateFormErrors f).avg_service_time =
        some "Average service time must be greater than 0") ∧
    ((∃ v, f.arrival_rate = some v ∧ v ≤ 0) →
      (validateFormErrors f).arrival_rate = some "Arrival rate must be greater than 0") ∧
    (¬claimFormValid f → handleSubmit f = none) := by
  obtain ⟨i, a, r⟩ := f
  refine ⟨?_, ?_, ?_, ?_, ?_⟩ <;>
    cases i <;> cases a <;> cases r <;>
      simp [handleSubmit, validateForm, validateFormErrors, claimFormValid]

/-- Witness for `handleSubmit_iff_valid`: a form with an image, a 60 s
service time and no arrival rate is valid and submits. -/
theorem handleSubmit_iff_valid_witness :
    (handleSubmit ⟨some "queue.jpg", some 60, none⟩).isSome :=
  (handleSubmit_iff_valid ⟨some "queue.jpg", some 60, none⟩).1.mpr
    ⟨rfl, ⟨60, rfl, by norm_num⟩, fun v h => nomatch h⟩

/-- **C3.** `predictWaitTime` always resolves to an `ApiResult` (it is a
total function of the axios outcome — no branch rethrows), `success` is
`true` exactly on HTTP success, where the response body is returned
under `data`; a network error (code `ERR_NETWORK` or a message
containing `"Network Error"`) maps to the fixed cannot-connect message,
and any other failure maps to `error.response.data.detail` when that is
a (non-empty) string, else to `error.message` when non-empty, else to
the literal `"Prediction failed"`. -/
theorem predictWaitTime_total_spec (o : AxiosOutcome PredictionData) :
    ((predictWaitTime o).success = true ↔ ∃ b, o = .ok b) ∧
    (∀ b, o = .ok b → predictWaitTime o = ⟨true, some b, none⟩) ∧
    (∀ e, o = .err e →
      (predictWaitTime o).success = false ∧ (predictWaitTime o).data = none ∧
      ((e.code = some "ERR_NETWORK" ∨ strIncludes e.message "Network Error" = true) →
        (predictWaitTime o).error = some cannotConnectMsg) ∧
      (¬(e.code = some "ERR_NETWORK" ∨ strIncludes e.message "Network Error" = true) →
        (∀ d, e.detail = some d → d ≠ "" → (predictWaitTime o).error = some d) ∧
        ((e.detail = none ∨ e.detail = some "") → e.message ≠ "" →
          (predictWaitTime o).error = some e.message) ∧
        ((e.detail = none ∨ e.detail = some "") → e.message = "" →
          (predictWaitTime o).error = some "Prediction failed"))) := by
  cases o with
  | ok b => simp [predictWaitTime]
  | err e =>
    have hnet : isNetworkError e = true ↔
        (e.code = some "ERR_NETWORK" ∨ strIncludes e.message "Network Error" = true) := by
      simp [isNetworkError]
    refine ⟨?_, ?_, ?_⟩
    · simp only [predictWaitTime]
      split <;> simp
    · intro b h
      exact nomatch h
    · rintro e' ⟨⟩
      by_cases h : isNetworkError e = true
      · refine ⟨?_, ?_, fun _ => by simp [predictWaitTime, h], fun hc => absurd (hnet.mp h) hc⟩ <;>
          simp [predictWaitTime, h]
      · have hb : isNetworkError e = false := by simpa using h
        refine ⟨by simp [predictWaitTime, hb], by simp [predictWaitTime, hb],
          fun hc => absurd (hnet.mpr hc) h, fun _ => ?_⟩
        refine ⟨fun d hd hd' => ?_, fun hd hm => ?_, fun hd hm => ?_⟩
        · simp [predictWaitTime, hb, detailOrMessageOr, hd, hd']
        · rcases hd with hd | hd <;> simp [predictWaitTime, hb, detailOrMessageOr, hd, hm]
        · rcases hd with hd | hd <;> simp [predictWaitTime, hb, detailOrMessageOr, hd, hm]

/-- Witness for `predictWaitTime_total_spec`: an `ERR_NETWORK` failure
resolves to the fixed cannot-connect message. -/
theorem predictWaitTime_total_spec_witness :
    (predictWaitTime (.err ⟨some "ERR_NETWORK", "request failed", none⟩)).error =
      some cannotConnectMsg :=
  ((predictWaitTime_total_spec (.err ⟨some "ERR_NETWORK", "request failed", none⟩)).2.2
    _ rfl).2.2.1 (Or.inl rfl)

/-- No string of the form `s ++ "/min"` can be the default-rate cell
text (their last characters differ). -/
theorem append_min_ne_default (s : String) : s ++ "/min" ≠ "2.0/min (default)" := by
  intro h
  have hd := congrArg (fun t : String => t.data.reverse.head?) h
  simp only [String.data_append] at hd
  rw [List.reverse_append] at hd
  have e1 : ("/min" : String).data.reverse = ['n', 'i', 'm', '/'] := rfl
  have e2 : ("2.0/min (default)" : String).data.reverse.head? = some ')' := rfl
  rw [e1, e2, List.cons_append, List.head?_cons] at hd
  exact absurd (Option.some.inj hd) (by decide)

/-- **C7.** The arrival-rate cell reads `"2.0/min (default)"` exactly
when the echoed `arrival_rate` is absent or falsy (`0`), and otherwise
shows the provided rate formatted with `toFixed(1)` followed by
`"/min"`. -/
theorem displayArrivalRate_default_iff (r : Option ℚ) :
    (displayArrivalRate r = "2.0/min (default)" ↔ (r = none ∨ r = some 0)) ∧
    (∀ v, r = some v → v ≠ 0 → displayArrivalRate r = toFixed1 v ++ "/min") := by
  cases r with
  | none => simp [displayArrivalRate]
  | some v =>
    by_cases hv : v = 0
    · subst hv
      simp [displayArrivalRate]
    · simp only [displayArrivalRate, if_pos hv, ne_eq]
      constructor
      · constructor
        · intro h
          exact absurd h (append_min_ne_default _)
        · rintro (h | h)
          · exact nomatch h
          · exact absurd (Option.some.inj h) hv
      · rintro w ⟨⟩ _
        rfl

/-- Witness for `displayArrivalRate_default_iff`: a rate of `3` renders
as `toFixed(1)` output plus `"/min"`. -/
theorem displayArrivalRate_default_iff_witness :
    displayArrivalRate (some 3) = toFixed1 3 ++ "/min" :=
  (displayArrivalRate_default_iff (some 3)).2 3 rfl (by norm_num)

/-- **C8.** Across a `handlePredict` run: the in-flight state has both
`prediction` and `error` null (and `isLoading` true); on completion
`isLoading` is false and at most one of `prediction`/`error` is
non-null — a success stores the response data with `error` null, any
failure stores an error message with `prediction` null. -/
theorem handlePredict_state_invariant (s : AppState) (o : AxiosOutcome PredictionData) :
    (handlePredictRun s o).1.prediction = none ∧
    (handlePredictRun s o).1.error = none ∧
    (handlePredictRun s o).1.isLoading = true ∧
    (handlePredictRun s o).2.isLoading = false ∧
    ((handlePredictRun s o).2.prediction = none ∨ (handlePredictRun s o).2.error = none) ∧
    (∀ b, o = .ok b →
      (handlePredictRun s o).2.prediction = some b ∧ (handlePredictRun s o).2.error = none) ∧
    (∀ e, o = .err e →
      (handlePredictRun s o).2.prediction = none ∧
      ((handlePredictRun s o).2.error).isSome = true) := by
  cases o with
  | ok b => simp [handlePredictRun, handlePredictStart, handlePredictSettle, predictWaitTime]
  | err e =>
    simp only [handlePredictRun, handlePredictStart, handlePredictSettle, predictWaitTime]
    split <;> simp

/-- Witness for `handlePredict_state_invariant`: a successful response
body ends up stored as the prediction with no error. -/
theorem handlePredict_state_invariant_witness :
    (handlePredictRun ⟨none, some "old error", false⟩
        (.ok ⟨600, 10, 10, 60, some 2⟩)).2.prediction = some ⟨600, 10, 10, 60, some 2⟩ ∧
    (handlePredictRun ⟨none, some "old error", false⟩
        (.ok ⟨600, 10, 10, 60, some 2⟩)).2.error = none :=
  (handlePredict_state_invariant ⟨none, some "old error", false⟩
    (.ok ⟨600, 10, 10, 60, some 2⟩)).2.2.2.2.2.1 _ rfl

/-- **C9.** When a prediction for queue size `q` is shown, the "Your
Prediction" dataset is `q − 1` nulls followed by the predicted minutes,
so the dot sits at category index `q − 1`; the x-axis label at that
index (when it exists among the 40 sample labels) is `1 + 5·(q − 1)`,
which coincides with `q` only when `q = 1`. -/
theorem predictionDataset_index (q : ℕ) (m : ℚ) (hq : 1 ≤ q) :
    (predictionDataset q m).length = q ∧
    (∀ i, i < q - 1 → (predictionDataset q m).getD i (some 0) = none) ∧
    (predictionDataset q m).getD (q - 1) none = some m ∧
    (∀ rng : ℕ → ℚ, q - 1 < 40 →
      (generateSampleData rng).1.getD (q - 1) 0 = 1 + 5 * (q - 1)) ∧
    (1 + 5 * (q - 1) = q ↔ q = 1) := by
  refine ⟨?_, ?_, ?_, ?_, by omega⟩
  · simp only [predictionDataset, List.length_append, List.length_replicate,
      List.length_singleton]
    omega
  · intro i hi
    rw [predictionDataset, List.getD_eq_getElem?_getD,
      List.getElem?_append_left (by simpa using hi)]
    simp [List.getElem?_replicate, hi]
  · rw [predictionDataset, List.getD_eq_getElem?_getD,
      List.getElem?_append_right (by simp)]
    simp
  · intro rng h40
    simp [generateSampleData, List.getD_eq_getElem?_getD, List.getElem?_map,
      List.getElem?_range, h40]

/-- Witness for `predictionDataset_index`: for `q = 3` the dataset is
two nulls then the value, the label at index 2 is 11 (not 3). -/
theorem predictionDataset_index_witness :
    (predictionDataset 3 15).length = 3 ∧
    (predictionDataset 3 15).getD 2 none = some 15 ∧
    (generateSampleData (fun _ => 0)).1.getD 2 0 = 1 + 5 * 2 := by
  have h := predictionDataset_index 3 15 (by norm_num)
  exact ⟨h.1, h.2.2.1, h.2.2.2.1 (fun _ => 0) (by norm_num)⟩

/-- A pushed time part like `"3 minutes"` is never the empty string
(it contains at least the space between number and unit). -/
theorem timePart_ne_empty (n : ℤ) (u : String) : timePart n u ≠ "" := by
  intro h
  have hd := congrArg String.data h
  simp only [timePart, String.data_append] at hd
  have h2 := (List.append_eq_nil.mp ((List.append_eq_nil.mp
    ((List.append_eq_nil.mp hd).1)).1)).2
  exact absurd h2 (by decide)

/-- `join` of a singleton. -/
theorem inter_one (a : String) : String.intercalate ", " [a] = a := rfl

/-- `join` of a pair. -/
theorem inter_two (a b : String) : String.intercalate ", " [a, b] = a ++ ", " ++ b := rfl

/-- A comma-join starting from a non-empty string is non-empty. -/
theorem append_comma_ne_empty (a b : String) (ha : a ≠ "") : a ++ ", " ++ b ≠ "" := by
  intro h
  have hd := congrArg String.data h
  simp only [String.data_append] at hd
  exact absurd (List.append_eq_nil.mp ((List.append_eq_nil.mp hd).1)).1
    (fun hz => ha (congrArg String.mk hz))

/-- For non-negative dividends the JavaScript `% 60` is non-negative. -/
theorem jsMod_nonneg (x : ℚ) (hx : 0 ≤ x) : 0 ≤ jsMod x 60 := by
  have hq : (0 : ℚ) ≤ x / 60 := by positivity
  rw [jsMod, jsTrunc, if_pos hq]
  have h2 : (60 : ℚ) * ⌊x / 60⌋ ≤ 60 * (x / 60) := by
    nlinarith [Int.floor_le (x / 60)]
  rw [mul_div_cancel₀ x (by norm_num : (60 : ℚ) ≠ 0)] at h2
  linarith

/-- Non-negative minutes give a non-negative hours component. -/
theorem hoursOf_nonneg (m : ℚ) (hm : 0 ≤ m) : 0 ≤ hoursOf m :=
  Int.floor_nonneg.mpr (by positivity)

/-- Non-negative minutes give a non-negative minutes component. -/
theorem minutesOf_nonneg (m : ℚ) (hm : 0 ≤ m) : 0 ≤ minutesOf m :=
  Int.floor_nonneg.mpr (jsMod_nonneg m hm)

/-- Non-negative seconds give a non-negative seconds component. -/
theorem secondsOf_nonneg (s : ℚ) (hs : 0 ≤ s) : 0 ≤ secondsOf s :=
  Int.floor_nonneg.mpr (jsMod_nonneg s hs)

/-- `formatTime` never returns the empty string: the empty join falls
back to the `"Less than a second"` literal. -/
theorem formatTime_ne_empty (m s : ℚ) : formatTime m s ≠ "" := by
  simp only [formatTime]
  split
  · decide
  · assumption

/-- **C10.** For non-negative inputs `formatTime` returns a non-empty
string; when the hours component is positive the output does not depend
on the seconds input at all (the seconds component is omitted); when
all displayed components are zero it returns `"Less than a second"`;
and in general the output is the comma-join of the non-zero components
as described by the claim (`claimTimeString`). -/
theorem formatTime_components_spec (m s : ℚ) (hm : 0 ≤ m) (hs : 0 ≤ s) :
    formatTime m s ≠ "" ∧
    (0 < hoursOf m → ∀ t : ℚ, formatTime m t = formatTime m s) ∧
    (hoursOf m = 0 ∧ minutesOf m = 0 ∧ secondsOf s = 0 →
      formatTime m s = "Less than a second") ∧
    formatTime m s = claimTimeString m s := by
  have h_h := hoursOf_nonneg m hm
  have h_mi := minutesOf_nonneg m hm
  have h_se := secondsOf_nonneg s hs
  refine ⟨formatTime_ne_empty m s, ?_, ?_, ?_⟩
  · intro hh t
    have hcond : ∀ u : ℚ, ¬(0 < secondsOf u ∧ hoursOf m = 0) := by
      rintro u ⟨-, h0⟩
      omega
    simp [formatTime, formatTimeParts, if_neg (hcond t), if_neg (hcond s)]
  · rintro ⟨h1, h2, h3⟩
    simp [formatTime, formatTimeParts, h1, h2, h3, String.intercalate]
  · have e1 : (if hoursOf m ≠ 0 then [timePart (hoursOf m) "hour"] else []) =
        (if 0 < hoursOf m then [timePart (hoursOf m) "hour"] else []) :=
      if_congr (by omega) rfl rfl
    have e2 : (if minutesOf m ≠ 0 then [timePart (minutesOf m) "minute"] else []) =
        (if 0 < minutesOf m then [timePart (minutesOf m) "minute"] else []) :=
      if_congr (by omega) rfl rfl
    have e3 : (if secondsOf s ≠ 0 ∧ ¬0 < hoursOf m then [timePart (secondsOf s) "second"]
          else []) =
        (if 0 < secondsOf s ∧ hoursOf m = 0 then [timePart (secondsOf s) "second"]
          else []) :=
      if_congr (by omega) rfl rfl
    have hclaim : claimTimeString m s =
        if formatTimeParts m s = [] then "Less than a second"
        else String.intercalate ", " (formatTimeParts m s) := by
      simp only [claimTimeString, formatTimeParts]
      rw [e1, e2, e3]
    have hcases : formatTimeParts m s = [] ∨
        String.intercalate ", " (formatTimeParts m s) ≠ "" := by
      simp only [formatTimeParts]
      split_ifs <;>
        first
          | exact Or.inl rfl
          | omega
          | (refine Or.inr ?_
             simp only [List.append_nil, List.nil_append, List.cons_append,
               inter_one, inter_two]
             first
               | exact timePart_ne_empty _ _
               | exact append_comma_ne_empty _ _ (timePart_ne_empty _ _))
    have hform : formatTime m s =
        if String.intercalate ", " (formatTimeParts m s) = "" then "Less than a second"
        else String.intercalate ", " (formatTimeParts m s) := rfl
    rw [hform, hclaim]
    rcases hcases with hc | hc
    · rw [hc]
      rfl
    · rw [if_neg hc, if_neg fun hl => hc (by rw [hl]; rfl)]

/-- Witness for `formatTime_components_spec`: a 90-minute / 5400-second
prediction renders non-empty and as the claim describes. -/
theorem formatTime_components_spec_witness :
    formatTime 90 5400 ≠ "" ∧ formatTime 90 5400 = claimTimeString 90 5400 :=
  ⟨(formatTime_components_spec 90 5400 (by norm_num) (by norm_num)).1,
   (formatTime_components_spec 90 5400 (by norm_num) (by norm_num)).2.2.2⟩
